import Mathlib

/-!
Verification of the device-identity rewriting utility of
`vscode-device-cleaner.js` (class `VSCodeDeviceManager`).

The identity store (`storage.json`) is modelled as an association list of
string keys to string values; JavaScript truthiness of a string value is
"present and nonempty".  The filesystem state each operation touches is
modelled explicitly: the storage file is absent, present with a parsed
record, or malformed (so that reading it raises a parse error); the
telemetry file is optional byte content together with timestamped backup
copies; the workspace-storage directory is an optional list of named
entries, each a directory or a plain file.  Failures of filesystem
primitives (`copyFileSync`, `rmSync`) are injected through explicit
parameters so that the error-handling structure of the source (which
`try`/`catch` blocks swallow an error, which rethrow it) can be proved.
-/

/-- JavaScript's case-sensitive `String.prototype.includes`. -/
def strIncludes (hay needle : String) : Bool :=
  (List.range (hay.data.length + 1)).any (fun i => needle.data.isPrefixOf (hay.data.drop i))

/-- The parsed contents of `storage.json`: ordered key/value pairs. -/
abbrev Store := List (String × String)

/-- Property read `storage[k]` on the parsed record. -/
def getKey : Store → String → Option String
  | [], _ => none
  | (a, b) :: rest, k => if k = a then some b else getKey rest k

/-- JavaScript truthiness of a property read: present with a nonempty value. -/
def truthyVal : Option String → Bool
  | some v => v != ""
  | none => false

/-- Truthiness test `if (storage[k])` from the source. -/
def truthy (st : Store) (k : String) : Bool := truthyVal (getKey st k)

/-- Assignment `storage[k] = v` to a key that is already present: the pair
keeps its position, its value is replaced. -/
def setKey : Store → String → String → Store
  | [], _, _ => []
  | (a, b) :: rest, k, v => if a = k then (k, v) :: setKey rest k v else (a, b) :: setKey rest k v

/-- `delete storage[k]`. -/
def eraseKey : Store → String → Store
  | [], _ => []
  | (a, b) :: rest, k => if a = k then eraseKey rest k else (a, b) :: eraseKey rest k

/-- The `identifierKeys` array of `resetDeviceIdentifiers`, in source order. -/
def identifierKeys : List String :=
  ["telemetry.machineId", "telemetry.devDeviceId", "telemetry.sessionId",
   "machineId", "deviceId", "sessionId"]

/-- The ternary chain choosing the replacement value for a key:
`key.includes('machine') ? newMachineId : key.includes('device') ? newDeviceId : newSessionId`. -/
def resetValue (newMachineId newDeviceId newSessionId k : String) : String :=
  if strIncludes k "machine" then newMachineId
  else if strIncludes k "device" then newDeviceId
  else newSessionId

/-- One iteration of the `identifierKeys.forEach` loop: overwrite `k` with its
replacement value when `storage[k]` is truthy. -/
def resetKey (m d s : String) (st : Store) (k : String) : Store :=
  if truthy st k then setKey st k (resetValue m d s k) else st

/-- The whole `identifierKeys.forEach` loop of `resetDeviceIdentifiers`. -/
def resetStoredIdentifiers (m d s : String) (st : Store) : Store :=
  identifierKeys.foldl (resetKey m d s) st

/-- State of the `storage.json` file: missing, unparsable, or parsed. -/
inductive FileState where
  | absent
  | malformed
  | present (st : Store)
deriving DecidableEq

/-- The identifier triple returned by `resetDeviceIdentifiers`. -/
structure Triple where
  machineId : String
  deviceId : String
  sessionId : String
deriving DecidableEq

/-- Errors thrown by the filesystem / JSON primitives. -/
inductive JsError where
  | parseError
  | ioError
deriving DecidableEq

/-- `resetDeviceIdentifiers`: with `m`, `d`, `s` the three freshly generated
identifiers, rewrite the recognized keys of `storage.json` when the file
exists and return the triple; a parse error is rethrown (the `catch` block
logs and `throw error`s) and leaves the file unchanged.  Result: the new
file state paired with the returned triple or the thrown error. -/
def resetDeviceIdentifiers (m d s : String) (fs : FileState) :
    FileState × Except JsError Triple :=
  match fs with
  | .absent => (.absent, .ok ⟨m, d, s⟩)
  | .malformed => (.malformed, .error .parseError)
  | .present st => (.present (resetStoredIdentifiers m d s st), .ok ⟨m, d, s⟩)

/-- The record transformation of `clearUserCache`: drop `scoreInfo_<userId>`
when it is truthy, otherwise leave the record (and the file) alone. -/
def clearUserCacheStore (userId : String) (st : Store) : Store :=
  if truthy st ("scoreInfo_" ++ userId) then eraseKey st ("scoreInfo_" ++ userId) else st

/-- `clearUserCache`: no-op on a falsy `userId`; on an existing parsed store,
remove the cache key and rewrite the file; errors are caught and logged, so a
malformed file is left unchanged. -/
def clearUserCache (userId : String) (fs : FileState) : FileState :=
  if userId = "" then fs
  else
    match fs with
    | .present st => .present (clearUserCacheStore userId st)
    | x => x

/-- Telemetry area of the filesystem: the byte content at the telemetry path
(`none` when the file is absent) and the backup files already created, keyed
by the millisecond timestamp that suffixes the backup path
`<original-path>.backup.<unix-millis>`. -/
structure TelemetryFS where
  original : Option (List Nat)
  backups : List (Nat × List Nat)
deriving DecidableEq

/-- `cleanTelemetryData`: when the telemetry file exists, `copyFileSync` it to
the timestamped backup path and then `unlinkSync` the original; a failing copy
throws, so the deletion is never reached and the `catch` block leaves the
state unchanged.  `now` is the `Date.now()` value, `copyFails` injects a copy
failure. -/
def cleanTelemetryData (now : Nat) (copyFails : Bool) (fs : TelemetryFS) : TelemetryFS :=
  match fs.original with
  | none => fs
  | some content =>
    if copyFails then fs
    else { original := none, backups := (now, content) :: fs.backups }

/-- An immediate entry of the workspace-storage directory. -/
structure Entry where
  name : String
  isDir : Bool
deriving DecidableEq

/-- The `items.forEach` loop of `clearWorkspaceStorage` over the listing, with
`rmFails` injecting an `rmSync` failure by entry name.  Returns the surviving
entries, the value of `clearedCount`, and whether the loop ran to completion
(an exception aborts the rest of the loop). -/
def clearEntries (rmFails : String → Bool) : List Entry → List Entry × Nat × Bool
  | [] => ([], 0, true)
  | e :: rest =>
    if e.isDir then
      if rmFails e.name then (e :: rest, 0, false)
      else
        let r := clearEntries rmFails rest
        (r.1, r.2.1 + 1, r.2.2)
    else
      let r := clearEntries rmFails rest
      (e :: r.1, r.2.1, r.2.2)

/-- Observable outcome of `clearWorkspaceStorage`: the directory contents
afterwards, the count the success log line reports (`none` when the log was
never reached because an error was caught, or the directory was absent), and
the JavaScript return value of the function. -/
structure WSOutcome where
  entries : Option (List Entry)
  loggedCount : Option Nat
  retval : Option Nat
deriving DecidableEq

/-- `clearWorkspaceStorage`: when the directory exists, remove each immediate
subdirectory entry inside one `try` block; the function body has no `return`
statement, so its value is always `undefined` (`none`). -/
def clearWorkspaceStorage (rmFails : String → Bool) (ws : Option (List Entry)) : WSOutcome :=
  match ws with
  | none => { entries := none, loggedCount := none, retval := none }
  | some items =>
    let r := clearEntries rmFails items
    { entries := some r.1
      loggedCount := if r.2.2 then some r.2.1 else none
      retval := none }

/-- The device-info record built by `getCurrentDeviceInfo`. -/
structure DeviceInfo where
  machineId : Option String
  deviceId : Option String
  sessionId : Option String
deriving DecidableEq

/-- JavaScript `a || b` on possibly-undefined string values. -/
def jsOr (a b : Option String) : Option String :=
  if truthyVal a then a else b

/-- The `try` body of `getCurrentDeviceInfo`: `null` when the storage file is
absent, the preferred-key record when it parses, a thrown parse error when the
content is malformed. -/
def getCurrentDeviceInfoBody (fs : FileState) : Except JsError (Option DeviceInfo) :=
  match fs with
  | .absent => .ok none
  | .malformed => .error .parseError
  | .present st =>
    .ok (some
      { machineId := jsOr (getKey st "telemetry.machineId") (getKey st "machineId")
        deviceId := jsOr (getKey st "telemetry.devDeviceId") (getKey st "deviceId")
        sessionId := jsOr (getKey st "telemetry.sessionId") (getKey st "sessionId") })

/-- `getCurrentDeviceInfo`: the surrounding `catch` logs any error and falls
through to `return null`. -/
def getCurrentDeviceInfo (fs : FileState) : Option DeviceInfo :=
  match getCurrentDeviceInfoBody fs with
  | .ok r => r
  | .error _ => none

/-- The template string of `generateNewUUID`. -/
def uuidTemplate : String := "xxxxxxxx-xxxx-4xxx-yxxx-xxxxxxxxxxxx"

/-- `v.toString(16)` for a nibble `v`. -/
def hexDigit (n : Fin 16) : Char :=
  if n.val < 10 then Char.ofNat (48 + n.val) else Char.ofNat (87 + n.val)

/-- `r & 0x3 | 0x8` on a nibble. -/
def variantNibble (n : Fin 16) : Fin 16 := ⟨n.val % 4 + 8, by omega⟩

/-- One replacement step of `'xxxxxxxx-xxxx-4xxx-yxxx-xxxxxxxxxxxx'.replace(/[xy]/g, ...)`:
the accumulator carries the output (reversed) and the index of the next
random draw; `r i` models the `i`-th value of `Math.random() * 16 | 0`. -/
def uuidStep (r : Nat → Fin 16) (acc : List Char × Nat) (c : Char) : List Char × Nat :=
  if c = 'x' then (hexDigit (r acc.2) :: acc.1, acc.2 + 1)
  else if c = 'y' then (hexDigit (variantNibble (r acc.2)) :: acc.1, acc.2 + 1)
  else (c :: acc.1, acc.2)

/-- `generateNewUUID`, parameterized by the stream of random nibble draws. -/
def generateNewUUID (r : Nat → Fin 16) : String :=
  ⟨((uuidTemplate.data.foldl (uuidStep r) ([], 0)).1).reverse⟩

/-- Lowercase-hex digit test (the output alphabet of `toString(16)`). -/
def isHexLower (c : Char) : Bool := c.isDigit || ('a' ≤ c && c ≤ 'f')

/-- Checks the canonical 8-4-4-4-12 hyphenated lowercase-hex shape with the
version nibble (index 14) fixed to `4` and the variant nibble (index 19) in
`8`, `9`, `a`, `b`. -/
def isUUIDShape (s : String) : Bool :=
  match s.data with
  | a0 :: a1 :: a2 :: a3 :: a4 :: a5 :: a6 :: a7 :: '-' ::
     b0 :: b1 :: b2 :: b3 :: '-' ::
     '4' :: c0 :: c1 :: c2 :: '-' ::
     v0 :: d0 :: d1 :: d2 :: '-' ::
     e0 :: e1 :: e2 :: e3 :: e4 :: e5 :: e6 :: e7 :: e8 :: e9 :: e10 :: e11 :: [] =>
    ([a0, a1, a2, a3, a4, a5, a6, a7, b0, b1, b2, b3, c0, c1, c2,
      d0, d1, d2, e0, e1, e2, e3, e4, e5, e6, e7, e8, e9, e10, e11].all isHexLower)
      && ([('8' : Char), '9', 'a', 'b'].contains v0)
  | _ => false

/-- The options record of `refreshVSCodeDevice` with its default values. -/
structure Options where
  resetIdentifiers : Bool := true
  cleanTelemetry : Bool := true
  clearWorkspace : Bool := false
  clearCache : Bool := true
deriving DecidableEq

/-- The filesystem state the refresh orchestrator can touch. -/
structure World where
  storage : FileState
  telemetry : TelemetryFS
  workspace : Option (List Entry)
deriving DecidableEq

/-- Ambient inputs of a refresh run: the three identifiers the generator
draws, the `Date.now()` value, and the injected filesystem failures. -/
structure Env where
  newMachineId : String
  newDeviceId : String
  newSessionId : String
  now : Nat
  copyFails : Bool
  rmFails : String → Bool

/-- The `results` object of `refreshVSCodeDevice`: each field is `some` iff
the corresponding property was added. -/
structure RefreshResults where
  identifiers : Option Triple
  telemetryCleared : Option Bool
  workspaceCleared : Option Bool
  cacheCleared : Option Bool
deriving DecidableEq

/-- `refreshVSCodeDevice`: runs the enabled sub-operations in order inside one
`try` block.  `resetDeviceIdentifiers` rethrows its errors, so a failure there
propagates out of the orchestrator (the `catch` rethrows) with no later step
executed; `cleanTelemetryData` and `clearWorkspaceStorage` catch their own
errors internally and never throw.  The `clearCache` branch only sets
`results.cacheCleared = true` (the `clearUserCache` call is commented out). -/
def refreshVSCodeDevice (env : Env) (o : Options) (w : World) :
    World × Except JsError RefreshResults :=
  match (if o.resetIdentifiers then
          match resetDeviceIdentifiers env.newMachineId env.newDeviceId env.newSessionId w.storage with
          | (st, .ok t) => Except.ok (st, some t)
          | (_, .error e) => Except.error e
        else Except.ok (w.storage, none) : Except JsError (FileState × Option Triple)) with
  | .error e => (w, .error e)
  | .ok (st1, ids) =>
    let w1 : World := { w with storage := st1 }
    let w2 : World := if o.cleanTelemetry then
        { w1 with telemetry := cleanTelemetryData env.now env.copyFails w1.telemetry } else w1
    let w3 : World := if o.clearWorkspace then
        { w2 with workspace := (clearWorkspaceStorage env.rmFails w2.workspace).entries } else w2
    (w3, .ok
      { identifiers := ids
        telemetryCleared := if o.cleanTelemetry then some true else none
        workspaceCleared := if o.clearWorkspace then some true else none
        cacheCleared := if o.clearCache then some true else none })

-- Basic lemmas about the store operations.

theorem truthyVal_isSome {o : Option String} (h : truthyVal o = true) : o.isSome = true := by
  cases o <;> simp [truthyVal] at h ⊢

theorem getKey_setKey (st : Store) (k v k' : String) :
    getKey (setKey st k v) k' =
      if k' = k then (if (getKey st k).isSome then some v else none) else getKey st k' := by
  induction st with
  | nil => by_cases h : k' = k <;> simp [setKey, getKey, h]
  | cons p rest ih =>
    obtain ⟨a, b⟩ := p
    by_cases hak : a = k
    · subst hak
      by_cases hk' : k' = a
      · subst hk'
        simp [setKey, getKey, ih]
      · simp [setKey, getKey, hk', ih]
    · by_cases hk'a : k' = a
      · subst hk'a
        simp [setKey, getKey, hak, Ne.symm hak]
      · by_cases hk'k : k' = k
        · subst hk'k
          simp [setKey, getKey, hak, hk'a, Ne.symm hak, ih]
        · simp [setKey, getKey, hak, hk'a, hk'k, ih]

theorem getKey_eraseKey (st : Store) (k k' : String) :
    getKey (eraseKey st k) k' = if k' = k then none else getKey st k' := by
  induction st with
  | nil => by_cases h : k' = k <;> simp [eraseKey, getKey, h]
  | cons p rest ih =>
    obtain ⟨a, b⟩ := p
    by_cases hak : a = k
    · subst hak
      by_cases hk' : k' = a
      · subst hk'
        simp [eraseKey, ih]
      · simp [eraseKey, getKey, hk', ih]
    · by_cases hk'a : k' = a
      · subst hk'a
        simp [eraseKey, getKey, hak, Ne.symm hak]
      · by_cases hk'k : k' = k
        · subst hk'k
          simp [eraseKey, getKey, hak, hk'a, Ne.symm hak, ih]
        · simp [eraseKey, getKey, hak, hk'a, hk'k, ih]

theorem getKey_resetKey (m d s : String) (st : Store) (k k' : String) :
    getKey (resetKey m d s st k) k' =
      if k' = k ∧ truthy st k = true then some (resetValue m d s k) else getKey st k' := by
  unfold resetKey
  by_cases ht : truthy st k = true
  · have hsome : (getKey st k).isSome = true := truthyVal_isSome ht
    by_cases hk : k' = k <;> simp [ht, hk, getKey_setKey, hsome]
  · by_cases hk : k' = k <;> simp [ht, hk]

theorem resetStored_eq_chain (m d s : String) (st : Store) :
    resetStoredIdentifiers m d s st =
      resetKey m d s (resetKey m d s (resetKey m d s (resetKey m d s (resetKey m d s
        (resetKey m d s st "telemetry.machineId") "telemetry.devDeviceId")
        "telemetry.sessionId") "machineId") "deviceId") "sessionId" := rfl

theorem getKey_resetStored (m d s : String) (st : Store) (k : String) :
    getKey (resetStoredIdentifiers m d s st) k =
      if k ∈ identifierKeys ∧ truthy st k = true then some (resetValue m d s k)
      else getKey st k := by
  rw [resetStored_eq_chain]
  by_cases hmem : k ∈ identifierKeys
  · simp only [identifierKeys, List.mem_cons, List.mem_singleton, List.not_mem_nil, or_false] at hmem
    rcases hmem with rfl | rfl | rfl | rfl | rfl | rfl <;>
      simp [getKey_resetKey, truthy, identifierKeys]
  · have h1 : k ≠ "telemetry.machineId" := by rintro rfl; exact hmem (by simp [identifierKeys])
    have h2 : k ≠ "telemetry.devDeviceId" := by rintro rfl; exact hmem (by simp [identifierKeys])
    have h3 : k ≠ "telemetry.sessionId" := by rintro rfl; exact hmem (by simp [identifierKeys])
    have h4 : k ≠ "machineId" := by rintro rfl; exact hmem (by simp [identifierKeys])
    have h5 : k ≠ "deviceId" := by rintro rfl; exact hmem (by simp [identifierKeys])
    have h6 : k ≠ "sessionId" := by rintro rfl; exact hmem (by simp [identifierKeys])
    simp [getKey_resetKey, h1, h2, h3, h4, h5, h6, hmem]

theorem resetValue_at_tmi (m d s : String) : resetValue m d s "telemetry.machineId" = m := rfl

theorem resetValue_at_tdd (m d s : String) : resetValue m d s "telemetry.devDeviceId" = s := rfl

theorem resetValue_at_tsi (m d s : String) : resetValue m d s "telemetry.sessionId" = s := rfl

theorem resetValue_at_mi (m d s : String) : resetValue m d s "machineId" = m := rfl

theorem resetValue_at_di (m d s : String) : resetValue m d s "deviceId" = d := rfl

theorem resetValue_at_si (m d s : String) : resetValue m d s "sessionId" = s := rfl

theorem clearEntries_ok (items : List Entry) :
    clearEntries (fun _ => false) items =
      (items.filter (fun e => !e.isDir), items.countP (fun e => e.isDir), true) := by
  induction items with
  | nil => simp [clearEntries]
  | cons e rest ih =>
    by_cases h : e.isDir <;>
      simp [clearEntries, h, ih, List.countP_cons, List.filter_cons]

theorem clearEntries_abort (rmFails : String → Bool) (pre : List Entry) (e : Entry)
    (rest : List Entry) (hpre : ∀ p ∈ pre, rmFails p.name = false)
    (he : e.isDir = true) (hf : rmFails e.name = true) :
    clearEntries rmFails (pre ++ e :: rest) =
      (pre.filter (fun x => !x.isDir) ++ e :: rest, pre.countP (fun x => x.isDir), false) := by
  induction pre with
  | nil => simp [clearEntries, he, hf]
  | cons p ps ih =>
    have hp : rmFails p.name = false := hpre p (by simp)
    have hps : ∀ q ∈ ps, rmFails q.name = false := fun q hq => hpre q (by simp [hq])
    by_cases hd : p.isDir <;>
      simp [clearEntries, hd, hp, ih hps, List.filter_cons, List.countP_cons]

-- Claim theorems.

/-- Claim C2, counterexample: with the store file absent, `resetDeviceIdentifiers`
returns exactly the same successful generated-triple result as when the file
exists — there is no distinct "no storage file" result to distinguish. -/
theorem c2_counterexample :
    (resetDeviceIdentifiers "M" "D" "S" .absent).2 =
      (resetDeviceIdentifiers "M" "D" "S" (.present [("machineId", "x")])).2
  ∧ (resetDeviceIdentifiers "M" "D" "S" .absent).2 = .ok ⟨"M", "D", "S"⟩ :=
  ⟨rfl, rfl⟩

/-- Claim C2 (amended): when the identity-store file does not exist,
`resetDeviceIdentifiers` performs no write (the store stays absent) and
returns the generated triple as an ordinary success — the very same result
value as when the file exists, with no distinct "no storage file" marker;
it is distinguishable from an error (the result is `ok`, not `error`). -/
theorem c2_reset_absent_amended (m d s : String) (st : Store) :
    resetDeviceIdentifiers m d s .absent = (.absent, .ok ⟨m, d, s⟩)
  ∧ (resetDeviceIdentifiers m d s .absent).2 =
      (resetDeviceIdentifiers m d s (.present st)).2 :=
  ⟨rfl, rfl⟩

/-- Claim C3, counterexample: on a record holding only `telemetry.devDeviceId`,
`resetIdentifiers` writes the new session id to it, not the new device id:
JavaScript `includes` is case-sensitive and `'telemetry.devDeviceId'` does not
contain the lowercase substring `'device'`. -/
theorem c3_counterexample :
    getKey (resetStoredIdentifiers "M" "D" "S" [("telemetry.devDeviceId", "old")])
        "telemetry.devDeviceId" = some "S"
  ∧ getKey (resetStoredIdentifiers "M" "D" "S" [("telemetry.devDeviceId", "old")])
        "telemetry.devDeviceId" ≠ some "D" := by
  decide

/-- Claim C3 (amended): `resetIdentifiers` overwrites exactly the recognized
identifier keys that are present with a nonempty (truthy) value: keys
containing `machine` receive the new machine id, `deviceId` — the only
recognized key containing the lowercase substring `device` — receives the new
device id, while `telemetry.devDeviceId` and the session keys receive the new
session id; recognized keys that are absent (or present with an empty value)
are left unchanged, so absent keys remain absent; and the returned triple's
`machineId` equals the `telemetry.machineId` value written to disk whenever
that key was overwritten. -/
theorem c3_reset_mapping_amended (m d s : String) (st : Store) :
    getKey (resetStoredIdentifiers m d s st) "telemetry.machineId" =
      (if truthy st "telemetry.machineId" = true then some m
       else getKey st "telemetry.machineId")
  ∧ getKey (resetStoredIdentifiers m d s st) "telemetry.devDeviceId" =
      (if truthy st "telemetry.devDeviceId" = true then some s
       else getKey st "telemetry.devDeviceId")
  ∧ getKey (resetStoredIdentifiers m d s st) "telemetry.sessionId" =
      (if truthy st "telemetry.sessionId" = true then some s
       else getKey st "telemetry.sessionId")
  ∧ getKey (resetStoredIdentifiers m d s st) "machineId" =
      (if truthy st "machineId" = true then some m else getKey st "machineId")
  ∧ getKey (resetStoredIdentifiers m d s st) "deviceId" =
      (if truthy st "deviceId" = true then some d else getKey st "deviceId")
  ∧ getKey (resetStoredIdentifiers m d s st) "sessionId" =
      (if truthy st "sessionId" = true then some s else getKey st "sessionId")
  ∧ (truthy st "telemetry.machineId" = true →
      (resetDeviceIdentifiers m d s (.present st)).2 = .ok ⟨m, d, s⟩
      ∧ getKey (resetStoredIdentifiers m d s st) "telemetry.machineId" =
          some (Triple.mk m d s).machineId) := by
  refine ⟨?_, ?_, ?_, ?_, ?_, ?_, fun ht => ⟨rfl, ?_⟩⟩ <;>
    simp [getKey_resetStored, identifierKeys, resetValue_at_tmi, resetValue_at_tdd,
      resetValue_at_tsi, resetValue_at_mi, resetValue_at_di, resetValue_at_si, *]

/-- Claim C3, witness: on a concrete record where `telemetry.machineId` is
present and nonempty, the amended theorem yields the returned triple and the
on-disk `telemetry.machineId` value, and they agree. -/
theorem c3_reset_mapping_witness :
    (resetDeviceIdentifiers "M" "D" "S"
        (.present [("telemetry.machineId", "old"), ("deviceId", "old2")])).2 =
      .ok ⟨"M", "D", "S"⟩
  ∧ getKey (resetStoredIdentifiers "M" "D" "S"
        [("telemetry.machineId", "old"), ("deviceId", "old2")]) "telemetry.machineId" =
      some (Triple.mk "M" "D" "S").machineId :=
  (c3_reset_mapping_amended "M" "D" "S"
    [("telemetry.machineId", "old"), ("deviceId", "old2")]).2.2.2.2.2.2 (by decide)

/-- Claim C4: keys that are not among the six recognized identifier keys are
untouched by `resetIdentifiers`, and keys other than the targeted
`scoreInfo_<userId>` key are untouched by `clearUserCache` — unknown keys are
never dropped or mutated on write. -/
theorem c4_unknown_keys_frame (m d s : String) (st : Store) (k : String)
    (hk : k ∉ identifierKeys) (userId : String) (st2 : Store) (k2 : String)
    (hk2 : k2 ≠ "scoreInfo_" ++ userId) :
    getKey (resetStoredIdentifiers m d s st) k = getKey st k
  ∧ getKey (clearUserCacheStore userId st2) k2 = getKey st2 k2 := by
  constructor
  · simp [getKey_resetStored, hk]
  · unfold clearUserCacheStore
    by_cases ht : truthy st2 ("scoreInfo_" ++ userId) = true
    · simp [ht, getKey_eraseKey, hk2]
    · simp [ht]

/-- Claim C4, witness: the unrelated key `scoreInfo_user42` survives a reset
unchanged, and `machineId` survives a cache clear unchanged, on a concrete
record containing both. -/
theorem c4_unknown_keys_witness :
    getKey (resetStoredIdentifiers "M" "D" "S"
        [("machineId", "m0"), ("scoreInfo_user42", "cached")]) "scoreInfo_user42" =
      getKey [("machineId", "m0"), ("scoreInfo_user42", "cached")] "scoreInfo_user42"
  ∧ getKey (clearUserCacheStore "user42"
        [("machineId", "m0"), ("scoreInfo_user42", "cached")]) "machineId" =
      getKey [("machineId", "m0"), ("scoreInfo_user42", "cached")] "machineId" :=
  c4_unknown_keys_frame "M" "D" "S" [("machineId", "m0"), ("scoreInfo_user42", "cached")]
    "scoreInfo_user42" (by decide) "user42"
    [("machineId", "m0"), ("scoreInfo_user42", "cached")] "machineId" (by decide)

/-- Claim C5, counterexample: on a workspace-storage directory with two
subdirectories and one plain file, `clearWorkspaceStorage` removes both
subdirectories, leaves the file and logs the count 2, but its return value is
`undefined`, not the count 2 the claim states it returns. -/
theorem c5_counterexample :
    clearWorkspaceStorage (fun _ => false)
        (some [⟨"ws1", true⟩, ⟨"ws2", true⟩, ⟨"f", false⟩]) =
      { entries := some [⟨"f", false⟩], loggedCount := some 2, retval := none }
  ∧ (clearWorkspaceStorage (fun _ => false)
        (some [⟨"ws1", true⟩, ⟨"ws2", true⟩, ⟨"f", false⟩])).retval ≠ some 2 := by
  decide

/-- Claim C5 (amended): on every existing workspace-storage directory (with no
removal failing), `clearWorkspaceStorage` removes every immediate subdirectory
entry, leaves every non-directory entry untouched, and logs the count of
removed entries — but the function itself returns no value (`undefined`), the
count is only logged. -/
theorem c5_clear_workspace_amended (items : List Entry) :
    clearWorkspaceStorage (fun _ => false) (some items) =
      { entries := some (items.filter (fun e => !e.isDir)),
        loggedCount := some (items.countP (fun e => e.isDir)),
        retval := none } := by
  simp [clearWorkspaceStorage, clearEntries_ok]

/-- Claim C6: `cleanTelemetryData` never deletes the telemetry file without a
completed backup: when the file is absent nothing happens; when the backup
copy fails the original (and everything else) is left in place; and on a
successful run the backup file, keyed by the millisecond timestamp of the path
`<original-path>.backup.<unix-millis>`, holds byte content identical to the
pre-call original while the original path no longer exists. -/
theorem c6_backup_before_delete (now : Nat) (copyFails : Bool) (fs : TelemetryFS) :
    (fs.original = none → cleanTelemetryData now copyFails fs = fs)
  ∧ (∀ content, fs.original = some content → copyFails = true →
      cleanTelemetryData now copyFails fs = fs)
  ∧ (∀ content, fs.original = some content → copyFails = false →
      cleanTelemetryData now copyFails fs =
        { original := none, backups := (now, content) :: fs.backups }) := by
  refine ⟨fun h => ?_, fun content h hc => ?_, fun content h hc => ?_⟩
  · simp [cleanTelemetryData, h]
  · simp [cleanTelemetryData, h, hc]
  · simp [cleanTelemetryData, h, hc]

/-- Claim C6, witness: a concrete successful run moves the bytes `[7, 8]` into
the timestamped backup and deletes the original. -/
theorem c6_backup_witness :
    cleanTelemetryData 5 false ⟨some [7, 8], []⟩ =
      { original := none, backups := [(5, [7, 8])] } :=
  (c6_backup_before_delete 5 false ⟨some [7, 8], []⟩).2.2 [7, 8] rfl rfl

/-- Claim C7, counterexample: on a malformed store file the `try` body of
`getCurrentDeviceInfo` does raise a parse error, but the surrounding `catch`
swallows it and the caller receives the very same `null` result as for an
absent file — the error is not surfaced, and `null` is not returned exactly
when the file is absent. -/
theorem c7_counterexample :
    getCurrentDeviceInfoBody .malformed = .error .parseError
  ∧ getCurrentDeviceInfo .malformed = none
  ∧ getCurrentDeviceInfo .absent = none :=
  ⟨rfl, rfl, rfl⟩

/-- Claim C7 (amended): `getCurrentDeviceInfo` returns the "not found" result
(`null`) exactly when the store file is absent or unreadable/malformed: parse
and IO errors are caught, logged and converted into the same `null` result
rather than surfaced to the caller. -/
theorem c7_info_not_found_amended (fs : FileState) :
    getCurrentDeviceInfo fs = none ↔ fs = .absent ∨ fs = .malformed := by
  cases fs <;> simp [getCurrentDeviceInfo, getCurrentDeviceInfoBody]

theorem hexDigit_isHexLower (n : Fin 16) : isHexLower (hexDigit n) = true := by
  revert n; decide

theorem variantNibble_mem (n : Fin 16) :
    hexDigit (variantNibble n) = '8' ∨ hexDigit (variantNibble n) = '9' ∨
    hexDigit (variantNibble n) = 'a' ∨ hexDigit (variantNibble n) = 'b' := by
  revert n; decide

/-- Claim C8: for every stream of random draws, `generateNewUUID` produces a
36-character string in the canonical 8-4-4-4-12 hyphenated lowercase
hexadecimal grouping, with the version nibble (index 14, the first character
of the third group) fixed to `4` and the variant nibble (index 19, the first
character of the fourth group) one of `8`, `9`, `a`, `b`. -/
theorem c8_uuid_shape (r : Nat → Fin 16) :
    (generateNewUUID r).length = 36 ∧ isUUIDShape (generateNewUUID r) = true := by
  have hs : generateNewUUID r =
      ⟨hexDigit (r 0) :: hexDigit (r 1) :: hexDigit (r 2) :: hexDigit (r 3) ::
       hexDigit (r 4) :: hexDigit (r 5) :: hexDigit (r 6) :: hexDigit (r 7) :: '-' ::
       hexDigit (r 8) :: hexDigit (r 9) :: hexDigit (r 10) :: hexDigit (r 11) :: '-' ::
       '4' :: hexDigit (r 12) :: hexDigit (r 13) :: hexDigit (r 14) :: '-' ::
       hexDigit (variantNibble (r 15)) ::
       hexDigit (r 16) :: hexDigit (r 17) :: hexDigit (r 18) :: '-' ::
       hexDigit (r 19) :: hexDigit (r 20) :: hexDigit (r 21) :: hexDigit (r 22) ::
       hexDigit (r 23) :: hexDigit (r 24) :: hexDigit (r 25) :: hexDigit (r 26) ::
       hexDigit (r 27) :: hexDigit (r 28) :: hexDigit (r 29) :: hexDigit (r 30) :: []⟩ := rfl
  rw [hs]
  constructor
  · rfl
  · simp [isUUIDShape, hexDigit_isHexLower]
    exact variantNibble_mem (r 15)

/-- Claim C9, counterexample: with two subdirectories `A` and `B` where
removing `A` fails, the exception aborts the `forEach` loop — `B` is still
present afterwards (its removal was never attempted) and no count is
reported, refuting independence of the per-entry removals. -/
theorem c9_counterexample :
    clearWorkspaceStorage (fun x => x == "A") (some [⟨"A", true⟩, ⟨"B", true⟩]) =
      { entries := some [⟨"A", true⟩, ⟨"B", true⟩], loggedCount := none, retval := none }
  ∧ (clearWorkspaceStorage (fun x => x == "A")
        (some [⟨"A", true⟩, ⟨"B", true⟩])).entries ≠ some [⟨"A", true⟩] := by
  decide

/-- Claim C9 (amended): in `clearWorkspaceStorage` the removals are not
independent: the whole loop runs inside one `try` block, so the first failing
removal aborts processing — the failing entry and every entry after it stay in
place untouched (earlier successfully removed subdirectories stay removed,
non-directory entries stay) and no aggregate count is reported, since the
error is caught before the count is logged and the function returns
`undefined`. -/
theorem c9_abort_amended (rmFails : String → Bool) (pre : List Entry) (e : Entry)
    (rest : List Entry) (hpre : ∀ p ∈ pre, rmFails p.name = false)
    (he : e.isDir = true) (hf : rmFails e.name = true) :
    clearWorkspaceStorage rmFails (some (pre ++ e :: rest)) =
      { entries := some (pre.filter (fun x => !x.isDir) ++ e :: rest),
        loggedCount := none, retval := none } := by
  simp [clearWorkspaceStorage, clearEntries_abort rmFails pre e rest hpre he hf]

/-- Claim C9, witness: with entries `A`, `B`, `C` (all directories) and the
removal of `B` failing, `A` is removed but `B` and `C` both remain and no
count is reported. -/
theorem c9_abort_witness :
    clearWorkspaceStorage (fun x => x == "B")
        (some ([⟨"A", true⟩] ++ ⟨"B", true⟩ :: [⟨"C", true⟩])) =
      { entries := some (([⟨"A", true⟩] : List Entry).filter (fun x => !x.isDir) ++
          ⟨"B", true⟩ :: [⟨"C", true⟩]),
        loggedCount := none, retval := none } :=
  c9_abort_amended (fun x => x == "B") [⟨"A", true⟩] ⟨"B", true⟩ [⟨"C", true⟩]
    (by decide) rfl rfl

/-- Claim C1, counterexample: with every option enabled and a malformed
storage file, the ParseError raised inside `resetDeviceIdentifiers` is
rethrown out of `refreshVSCodeDevice` — the telemetry file and the workspace
directory are untouched (the remaining enabled sub-operations never execute)
and nothing records the failure in a result error list; the call produces an
error, not a result. -/
theorem c1_counterexample :
    refreshVSCodeDevice ⟨"M", "D", "S", 0, false, fun _ => false⟩ ⟨true, true, true, true⟩
        ⟨.malformed, ⟨some [1], []⟩, some [⟨"d", true⟩]⟩ =
      (⟨.malformed, ⟨some [1], []⟩, some [⟨"d", true⟩]⟩, .error .parseError) := rfl

/-- Claim C1 (amended): the orchestrator is only partially failure-tolerant:
failures inside `cleanTelemetryData` and `clearWorkspaceStorage` are caught
within those sub-operations, so they never abort the remaining sub-operations
(whatever copy or removal failures are injected, the run still succeeds and
still sets the later result flags); but a failure raised inside
`resetDeviceIdentifiers` (for example a ParseError from a malformed store) is
rethrown by `refreshVSCodeDevice`, aborts every remaining enabled
sub-operation, and is recorded in no result error list — the result object
has no error list at all. -/
theorem c1_orchestrator_amended (env : Env) (o : Options) (w : World) :
    (o.resetIdentifiers = true → w.storage = .malformed →
      refreshVSCodeDevice env o w = (w, .error .parseError))
  ∧ (w.storage ≠ .malformed →
      (refreshVSCodeDevice env o w).2 = .ok
        { identifiers := if o.resetIdentifiers then
            some ⟨env.newMachineId, env.newDeviceId, env.newSessionId⟩ else none
          telemetryCleared := if o.cleanTelemetry then some true else none
          workspaceCleared := if o.clearWorkspace then some true else none
          cacheCleared := if o.clearCache then some true else none }) := by
  constructor
  · intro hr hs
    simp [refreshVSCodeDevice, hr, hs, resetDeviceIdentifiers]
  · intro hs
    cases hw : w.storage with
    | absent =>
      cases hr : o.resetIdentifiers <;>
        simp [refreshVSCodeDevice, hr, hw, resetDeviceIdentifiers]
    | malformed => exact absurd hw hs
    | present st =>
      cases hr : o.resetIdentifiers <;>
        simp [refreshVSCodeDevice, hr, hw, resetDeviceIdentifiers]

/-- Claim C1, witness: a concrete refresh with every option enabled and a
malformed store rethrows the ParseError and leaves the whole world unchanged. -/
theorem c1_orchestrator_witness :
    refreshVSCodeDevice ⟨"m2", "d2", "s2", 7, true, fun _ => true⟩ ⟨true, true, true, true⟩
        ⟨.malformed, ⟨some [3, 4], []⟩, some []⟩ =
      (⟨.malformed, ⟨some [3, 4], []⟩, some []⟩, .error .parseError) :=
  (c1_orchestrator_amended ⟨"m2", "d2", "s2", 7, true, fun _ => true⟩
    ⟨true, true, true, true⟩ ⟨.malformed, ⟨some [3, 4], []⟩, some []⟩).1 rfl rfl

/-- Claim C10: when `clearCache` is enabled, `refreshVSCodeDevice` performs no
cache-clearing operation at all — the resulting filesystem state is identical
to a run with `clearCache` disabled, so the identity store's `scoreInfo_*`
keys are neither read nor removed (the `clearUserCache` call is commented
out) — yet every successful result reports `cacheCleared` as `true`. -/
theorem c10_cache_flag_no_op (env : Env) (o : Options) (w : World)
    (h : o.clearCache = true) :
    (refreshVSCodeDevice env o w).1 =
      (refreshVSCodeDevice env { o with clearCache := false } w).1
  ∧ (∀ res, (refreshVSCodeDevice env o w).2 = .ok res → res.cacheCleared = some true) := by
  obtain ⟨oRes, oTel, oWs, oCache⟩ := o
  have hc : oCache = true := h
  subst hc
  constructor
  · cases hw : w.storage <;> cases hr : oRes <;>
      simp [refreshVSCodeDevice, hw, hr, resetDeviceIdentifiers]
  · intro res hres
    cases hw : w.storage <;> cases hr : oRes <;>
      simp [refreshVSCodeDevice, hw, hr, resetDeviceIdentifiers] at hres <;>
      simp [← hres]

/-- Claim C10, witness: a concrete refresh with only `clearCache` enabled
leaves the filesystem state exactly as a run with it disabled. -/
theorem c10_cache_flag_witness :
    (refreshVSCodeDevice ⟨"M", "D", "S", 2, false, fun _ => false⟩ ⟨false, false, false, true⟩
        ⟨.present [("machineId", "x")], ⟨none, []⟩, none⟩).1 =
      (refreshVSCodeDevice ⟨"M", "D", "S", 2, false, fun _ => false⟩ ⟨false, false, false, false⟩
        ⟨.present [("machineId", "x")], ⟨none, []⟩, none⟩).1 :=
  (c10_cache_flag_no_op ⟨"M", "D", "S", 2, false, fun _ => false⟩ ⟨false, false, false, true⟩
    ⟨.present [("machineId", "x")], ⟨none, []⟩, none⟩ rfl).1
